import Mathlib

/-!
Verification development for `console_error_scraper.py` (ConsoleAndGDPR).

The script is a single class `ConsoleErrorScraper` that loads a target URL
from a `.env` file, opens a browser page with console/page-error observers,
navigates, tries to click a cookie-consent button from a fixed selector
list, and saves the captured diagnostic events to
`console_error/site_url/<domain>.json`.

The pure logic (config-line parsing, scheme prepending, domain derivation,
event accumulation, selector scanning, save decision, run/cleanup control
flow) is embedded below.  Browser behaviour (which selectors are visible,
which events the page delivers, which steps raise) is abstracted as input
data to the embedded functions, mirroring exactly where the Python code
consumes it.  String operations are modelled on `List Char` so that their
semantics (in particular Python's `str.replace`, which removes every
non-overlapping occurrence scanning left to right) is explicit and
executable by kernel reduction.
-/

/-! ## Character-list string primitives -/

/-- Boolean prefix test on character lists (`str.startswith`). -/
def isPre : List Char → List Char → Bool
  | [], _ => true
  | _ :: _, [] => false
  | a :: as, b :: bs => a == b && isPre as bs

/-- Leftmost occurrence search: `some rest` when `pat` occurs as a
contiguous substring, with `rest` the characters after that first
occurrence; `none` when it does not occur.  (An empty `pat` occurs at the
start.) -/
def afterSub (pat : List Char) : List Char → Option (List Char)
  | [] => if isPre pat [] then some [] else none
  | c :: cs => if isPre pat (c :: cs) then some ((c :: cs).drop pat.length) else afterSub pat cs

/-- Whether `pat` occurs anywhere in the list (`in` on Python strings). -/
def occursIn (pat : List Char) (l : List Char) : Bool :=
  (afterSub pat l).isSome

/-- Fuelled worker for `replaceAll`; the fuel only bounds recursion depth
(one unit per character consumed), so `fuel = l.length` never runs out. -/
def replaceAllF (pat rep : List Char) : Nat → List Char → List Char
  | _, [] => []
  | 0, l => l
  | fuel + 1, c :: cs =>
    if isPre pat (c :: cs) && !pat.isEmpty then
      rep ++ replaceAllF pat rep fuel (cs.drop (pat.length - 1))
    else
      c :: replaceAllF pat rep fuel cs

/-- Python `str.replace`: replace every non-overlapping occurrence of `pat`
by `rep`, scanning left to right.  (Degenerate case never used by the
scraper: for `pat = []` this returns the list unchanged, while Python would
interleave `rep`; every pattern the scraper replaces is non-empty.) -/
def replaceAll (pat rep l : List Char) : List Char :=
  replaceAllF pat rep l.length l

/-- Characters up to (excluding) the first occurrence of any stop char. -/
def takeUntilAny (stops : List Char) : List Char → List Char
  | [] => []
  | c :: cs => if c ∈ stops then [] else c :: takeUntilAny stops cs

/-- Python `str.strip()` on the whitespace the scraper's `.env` lines can
carry: leading and trailing whitespace removed. -/
def trimChars (l : List Char) : List Char :=
  ((l.dropWhile Char.isWhitespace).reverse.dropWhile Char.isWhitespace).reverse

/-- String-level wrapper for `replaceAll`: Python's `s.replace(pat, rep)`. -/
def strReplace (s pat rep : String) : String :=
  ⟨replaceAll pat.data rep.data s.data⟩

/-- String-level wrapper for `trimChars`: Python's `s.strip()`. -/
def strTrim (s : String) : String :=
  ⟨trimChars s.data⟩

/-- `line.split('=', 1)` combined with the `'=' in line` test: `none` when
the list holds no `=`, otherwise the parts before and after the first `=`. -/
def splitFirstEq : List Char → Option (List Char × List Char)
  | [] => none
  | c :: cs =>
    if c = '=' then some ([], cs)
    else
      match splitFirstEq cs with
      | none => none
      | some (k, v) => some (c :: k, v)

/-! ## Data model -/

/-- One captured diagnostic event: the dict built by the three handlers
(`handle_console_message`, `handle_page_error`, and the `except` branch of
`navigate_and_capture_errors`).  The capture clock is modelled as a `Nat`. -/
structure ErrorData where
  timestamp : Nat
  type : String
  text : String
  location : Option String
  url : Option String
deriving Repr, DecidableEq

/-- The mutable fields of `ConsoleErrorScraper` that the pure logic reads
and writes.  `pageUrl` models `self.page.url` (`none` while no page is
open). -/
structure ScraperState where
  console_errors : List ErrorData
  site_url : Option String
  gdpr_present : Bool
  pageUrl : Option String
deriving Repr, DecidableEq

/-- `__init__`: empty event list, no URL, GDPR flag false, no page. -/
def initialState : ScraperState :=
  { console_errors := [], site_url := none, gdpr_present := false, pageUrl := none }

/-! ## Configuration loading (`load_env_file`) -/

/-- The two fatal configuration failures: `FileNotFoundError` when `.env`
is absent, `ValueError` when `SITE_URL` is missing or empty. -/
inductive ConfigError
  | fileNotFound
  | siteUrlNotFound
deriving Repr, DecidableEq

/-- The message each configuration exception carries. -/
def configErrorMessage : ConfigError → String
  | .fileNotFound => "No .env file found. Please create a .env file with SITE_URL=<your_site_url>"
  | .siteUrlNotFound => "SITE_URL not found in .env file"

/-- One iteration of the `.env` line loop: strip the line; if it is
non-blank, not a `#` comment, and contains `=`, split on the first `=`
into `(key, value)`; otherwise the line is skipped. -/
def parseLine (raw : String) : Option (String × String) :=
  let line := trimChars raw.data
  if line.isEmpty || isPre ['#'] line then none
  else
    match splitFirstEq line with
    | some (k, v) => some (⟨k⟩, ⟨v⟩)
    | none => none

/-- Whether the loop would accept this line as the `SITE_URL` line. -/
def lineMatch (raw : String) : Bool :=
  match parseLine raw with
  | some (k, _) => strTrim k = "SITE_URL"
  | none => false

/-- The stripped value the loop would take from a matching line. -/
def lineValue (raw : String) : String :=
  match parseLine raw with
  | some (_, v) => strTrim v
  | none => ""

/-- The `for line in file` loop with its `break`: the stripped value of the
first line whose key strips to `SITE_URL`, even when that value is empty. -/
def findSiteUrl : List String → Option String
  | [] => none
  | raw :: rest =>
    match parseLine raw with
    | some (k, v) => if strTrim k = "SITE_URL" then some (strTrim v) else findSiteUrl rest
    | none => findSiteUrl rest

/-- `# Add protocol if missing`: prepend `https://` unless the URL already
starts with `http://` or `https://`. -/
def addProtocol (u : String) : String :=
  if isPre "http://".data u.data || isPre "https://".data u.data then u
  else "https://" ++ u

/-- `load_env_file`: `none` models an absent `.env` file; otherwise the
file's lines.  Returns the resolved site URL or the configuration error
the Python code raises (`if not self.site_url` fires both when no line
matched and when the matched value stripped to the empty string). -/
def load_env_file (envFile : Option (List String)) : Except ConfigError String :=
  match envFile with
  | none => .error .fileNotFound
  | some lines =>
    match findSiteUrl lines with
    | none => .error .siteUrlNotFound
    | some v => if v = "" then .error .siteUrlNotFound else .ok (addProtocol v)

/-! ## Domain derivation (`save_errors_to_json`, lines 221-229) -/

/-- Model of `urllib.parse.urlparse(u).netloc` on the URLs this program
builds (scheme-carrying strings): the characters after the first `"://"`
up to the next `/`, `?` or `#`; empty when no `"://"` occurs (scheme-less
strings parse with an empty netloc). -/
def netloc (u : String) : String :=
  match afterSub "://".data u.data with
  | none => ""
  | some rest => ⟨takeUntilAny ['/', '?', '#'] rest⟩

/-- The domain used as the output file's base name:
`parsed_url.netloc.replace('www.', '').replace(':', '_')`, falling back,
when that is empty, to the whole URL with `https://`, `http://`, `www.`
removed and `/`, `:` replaced by `_`. -/
def deriveDomain (site_url : String) : String :=
  let domain := strReplace (strReplace (netloc site_url) "www." "") ":" "_"
  if domain = "" then
    strReplace (strReplace (strReplace (strReplace (strReplace
      site_url "https://" "") "http://" "") "www." "") "/" "_") ":" "_"
  else domain

/-- The claim's reading of the derivation ("host component with the `www.`
prefix stripped and `:` replaced by `_`"), stated from the spec's words for
comparison with `deriveDomain`. -/
def specDomain (u : String) : String :=
  let h := netloc u
  let h2 := if isPre "www.".data h.data then ⟨h.data.drop 4⟩ else h
  strReplace h2 ":" "_"

/-! ## Event observers (`handle_console_message`, `handle_page_error`) -/

/-- A browser console message as delivered to the `console` observer:
`msg.type` is an arbitrary severity string chosen by the browser. -/
structure ConsoleMsg where
  type : String
  text : String
  location : Option String
deriving Repr, DecidableEq

/-- The `error_data` dict `handle_console_message` builds: kind equal to
the message's severity, the message text and location, and the current
page URL. -/
def consoleEvent (ts : Nat) (m : ConsoleMsg) (pu : Option String) : ErrorData :=
  { timestamp := ts, type := m.type, text := m.text, location := m.location, url := pu }

/-- The `error_data` dict `handle_page_error` builds: kind `page_error`,
the stringified error, no location, the current page URL. -/
def pageErrorEvent (ts : Nat) (err : String) (pu : Option String) : ErrorData :=
  { timestamp := ts, type := "page_error", text := err, location := none, url := pu }

/-- The `error_data` dict the `except` branch of
`navigate_and_capture_errors` builds: kind `navigation_error`, text
`f"Navigation error: {str(e)}"`, no location, `url` from `self.site_url`. -/
def navErrorEvent (ts : Nat) (e : String) (su : Option String) : ErrorData :=
  { timestamp := ts, type := "navigation_error", text := "Navigation error: " ++ e,
    location := none, url := su }

/-- `handle_console_message`: only messages of severity `error` or
`warning` append an event (with kind equal to the severity); every other
severity leaves the state untouched. -/
def handle_console_message (s : ScraperState) (ts : Nat) (msg : ConsoleMsg) : ScraperState :=
  if msg.type = "error" || msg.type = "warning" then
    { s with console_errors := s.console_errors ++ [consoleEvent ts msg s.pageUrl] }
  else s

/-- `handle_page_error`: every uncaught page exception appends one event of
kind `page_error` with no location. -/
def handle_page_error (s : ScraperState) (ts : Nat) (err : String) : ScraperState :=
  { s with console_errors := s.console_errors ++ [pageErrorEvent ts err s.pageUrl] }

/-- One asynchronous delivery from the browser engine to one of the two
registered observers. -/
inductive PageEvent
  | console (msg : ConsoleMsg)
  | pageError (err : String)
deriving Repr, DecidableEq

/-- Sequential delivery of a batch of page events to the observers, the
capture clock ticking once per delivery. -/
def deliverEvents (s : ScraperState) (ts : Nat) : List PageEvent → ScraperState
  | [] => s
  | .console m :: rest => deliverEvents (handle_console_message s ts m) (ts + 1) rest
  | .pageError e :: rest => deliverEvents (handle_page_error s ts e) (ts + 1) rest

/-! ## Consent-control resolver (`find_and_click_accept_button`) -/

/-- What the page does for one candidate selector: the locator is visible
and the click succeeds; visible but the click raises (intercepted); not
visible within the wait; or the check itself raises.  Everything except
`visibleClickOk` lands in the `except Exception: continue` branch. -/
inductive SelectorOutcome
  | visibleClickOk
  | visibleClickFails
  | notVisible
  | throws
deriving Repr, DecidableEq

/-- The hardcoded candidate-selector catalog, in the order the loop tries
them (CSS first, the three XPath patterns last).  The loop treats each
selector as an opaque token handed to the browser engine — only identity
and order matter — so the quote marks inside the textual patterns are
dropped here. -/
def accept_selectors : List String := [
  "button:has-text(Accept All)",
  "button:has-text(Accept all)",
  "button:has-text(ACCEPT ALL)",
  "button:has-text(Accept All Cookies)",
  "button:has-text(Accept all cookies)",
  "#accept-all",
  "#acceptAll",
  "#accept_all",
  ".accept-all",
  ".acceptAll",
  ".accept_all",
  "button:has-text(I Accept)",
  "button:has-text(I Agree)",
  "button:has-text(OK)",
  "button:has-text(Got it)",
  "button:has-text(Agree)",
  "button:has-text(Continue)",
  "button[aria-label*=Accept]",
  "button[aria-label*=accept]",
  "button[data-testid*=accept]",
  "button[data-cy*=accept]",
  "[id*=CybotCookiebotDialogBodyLevelButtonLevelOptinAllowAll]",
  ".cc-allow-all",
  ".cookie-accept",
  ".gdpr-accept",
  "//*[contains(text(), Accept) and (self::button or self::a)]",
  "//*[contains(text(), I agree) and (self::button or self::a)]",
  "//*[contains(text(), Continue) and (self::button or self::a)]"]

/-- The `for selector in accept_selectors` loop: stop with `True` at the
first selector whose element is visible and whose click succeeds; swallow
every other outcome and try the next.  Also returns the selectors the loop
examined, in order. -/
def tryClickList (page : String → SelectorOutcome) : List String → Bool × List String
  | [] => (false, [])
  | sel :: rest =>
    match page sel with
    | .visibleClickOk => (true, [sel])
    | _ =>
      let r := tryClickList page rest
      (r.1, sel :: r.2)

/-- `find_and_click_accept_button`: returns (activated?, selectors
examined, updated state); `self.gdpr_present = True` runs exactly when a
click succeeded. -/
def find_and_click_accept_button (page : String → SelectorOutcome) (s : ScraperState) :
    Bool × List String × ScraperState :=
  let r := tryClickList page accept_selectors
  (r.1, r.2, if r.1 then { s with gdpr_present := true } else s)

/-! ## Navigation and capture (`navigate_and_capture_errors`) -/

/-- One navigation attempt as the `try` block experiences it: the events
the page delivers before the consent-resolver step, whether `page.goto`
raises (in which case nothing later in the block runs), the events
delivered after the resolver, and whether one of the post-resolver waits,
evaluations or scrolls raises. -/
structure NavScenario where
  preEvents : List PageEvent
  gotoExc : Option String
  postEvents : List PageEvent
  laterExc : Option String
deriving Repr, DecidableEq

/-- The `except` branch: append a single event of kind `navigation_error`
whose text is `f"Navigation error: {str(e)}"`, with `url` taken from
`self.site_url` rather than the page. -/
def appendNavError (s : ScraperState) (ts : Nat) (e : String) : ScraperState :=
  { s with console_errors := s.console_errors ++ [navErrorEvent ts e s.site_url] }

/-- `navigate_and_capture_errors`: goto, settle, consent resolver, waits
and scrolls; any exception in the block is caught and converted into one
`navigation_error` event, and the function always returns normally. -/
def navigate_and_capture_errors (page : String → SelectorOutcome) (sc : NavScenario)
    (s : ScraperState) (ts : Nat) : ScraperState :=
  match sc.gotoExc with
  | some e =>
    let s1 := deliverEvents s ts sc.preEvents
    appendNavError s1 (ts + sc.preEvents.length) e
  | none =>
    let s0 := { s with pageUrl := s.site_url }
    let s1 := deliverEvents s0 ts sc.preEvents
    let s2 := (find_and_click_accept_button page s1).2.2
    let s3 := deliverEvents s2 (ts + sc.preEvents.length) sc.postEvents
    match sc.laterExc with
    | some e => appendNavError s3 (ts + sc.preEvents.length + sc.postEvents.length) e
    | none => s3

/-! ## Result persistence (`save_errors_to_json`) -/

/-- The JSON document `save_errors_to_json` writes. -/
structure OutputData where
  site_url : String
  domain : String
  scraped_at : Nat
  GDPR_PRESENT : String
  total_errors : Nat
  errors : List ErrorData
deriving Repr, DecidableEq

/-- One file written to disk: its path and its JSON content. -/
structure FileWrite where
  path : String
  data : OutputData
deriving Repr, DecidableEq

/-- `save_errors_to_json`: skip entirely (no file) when no events were
captured; otherwise write exactly one JSON document at
`console_error/site_url/<domain>.json`. -/
def save_errors_to_json (s : ScraperState) (now : Nat) : Option FileWrite :=
  if s.console_errors.isEmpty then none
  else
    let url := s.site_url.getD ""
    let domain := deriveDomain url
    some { path := "console_error/site_url/" ++ domain ++ ".json"
         , data := { site_url := url, domain := domain, scraped_at := now
                   , GDPR_PRESENT := if s.gdpr_present then "TRUE" else "FALSE"
                   , total_errors := s.console_errors.length
                   , errors := s.console_errors } }

/-! ## Resource lifecycle (`setup_browser`, `cleanup`, `run`) -/

/-- The handles `cleanup` releases: the page, the browser process (closing
it also closes the context it owns), and the Playwright engine handle. -/
structure Resources where
  pageOpen : Bool
  browserOpen : Bool
  playwrightOpen : Bool
deriving Repr, DecidableEq

/-- No handle open (before `setup_browser`, and after a config failure). -/
def noResources : Resources :=
  { pageOpen := false, browserOpen := false, playwrightOpen := false }

/-- Every handle open (after a successful `setup_browser`). -/
def allResources : Resources :=
  { pageOpen := true, browserOpen := true, playwrightOpen := true }

/-- `cleanup`: close the page, browser and engine handle, each guarded by
`if self.<handle>:`. -/
def cleanup (r : Resources) : Resources :=
  let r1 := if r.pageOpen then { r with pageOpen := false } else r
  let r2 := if r1.browserOpen then { r1 with browserOpen := false } else r1
  if r2.playwrightOpen then { r2 with playwrightOpen := false } else r2

/-- The steps `run` performs, in order, as a trace (the `finally` block
makes `cleanup` the last step of every trace). -/
inductive RunAction
  | loadConfig
  | setupBrowser
  | navigate
  | save
  | printError (msg : String)
  | cleanup
deriving Repr, DecidableEq

/-- How many times a trace runs the `cleanup` step. -/
def countCleanup : List RunAction → Nat
  | [] => 0
  | RunAction.cleanup :: rest => countCleanup rest + 1
  | _ :: rest => countCleanup rest

/-- One whole run's external input: the `.env` file (or its absence),
whether `setup_browser` raises before acquiring anything, and the page
behaviour consumed by navigation. -/
structure RunInput where
  envFile : Option (List String)
  setupFails : Bool
  page : String → SelectorOutcome
  nav : NavScenario

/-- What a run leaves behind: the file written (if any), the final object
state, the resources open after `finally`, whether a browser was ever
acquired, and the action trace. -/
structure RunOutcome where
  fileWritten : Option FileWrite
  finalState : ScraperState
  finalResources : Resources
  browserAcquired : Bool
  actions : List RunAction
deriving DecidableEq

/-- Scraper state right after a successful `setup_browser` for `url`:
page open on `about:blank`, observers attached, nothing captured. -/
def readyState (url : String) : ScraperState :=
  { console_errors := [], site_url := some url,
    gdpr_present := false, pageUrl := some "about:blank" }

/-- `run`: load config, set up the browser, navigate and capture, save —
with `except Exception` printing any error and `finally` always running
`cleanup` once, as the last action. -/
def run (inp : RunInput) : RunOutcome :=
  match load_env_file inp.envFile with
  | .error e =>
    { fileWritten := none
    , finalState := initialState
    , finalResources := cleanup noResources
    , browserAcquired := false
    , actions := [.loadConfig, .printError (configErrorMessage e), .cleanup] }
  | .ok url =>
    if inp.setupFails then
      { fileWritten := none
      , finalState := { initialState with site_url := some url }
      , finalResources := cleanup noResources
      , browserAcquired := false
      , actions := [.loadConfig, .setupBrowser, .printError "setup failed", .cleanup] }
    else
      let s1 := navigate_and_capture_errors inp.page inp.nav (readyState url) 0
      { fileWritten := save_errors_to_json s1 0
      , finalState := s1
      , finalResources := cleanup allResources
      , browserAcquired := true
      , actions := [.loadConfig, .setupBrowser, .navigate, .save, .cleanup] }

/-! ## Helper lemmas: string primitives -/

theorem isPre_sub {pat l : List Char} (h : isPre pat l = true) : ∀ c ∈ pat, c ∈ l := by
  induction pat generalizing l with
  | nil => intro c hc; cases hc
  | cons a as ih =>
    cases l with
    | nil => simp [isPre] at h
    | cons b bs =>
      simp only [isPre, Bool.and_eq_true, beq_iff_eq] at h
      intro c hc
      rcases List.mem_cons.1 hc with hca | hcas
      · exact List.mem_cons.2 (Or.inl (hca.trans h.1))
      · exact List.mem_cons.2 (Or.inr (ih h.2 c hcas))

theorem afterSub_none {pat l : List Char} {c : Char} (hc : c ∈ pat) (hl : c ∉ l) :
    afterSub pat l = none := by
  induction l with
  | nil =>
    cases pat with
    | nil => cases hc
    | cons a as => simp [afterSub, isPre]
  | cons b bs ih =>
    have hpre : isPre pat (b :: bs) = false := by
      by_contra hne
      exact hl (isPre_sub (by revert hne; cases isPre pat (b :: bs) <;> simp) c hc)
    have hbs : c ∉ bs := fun h => hl (List.mem_cons.2 (Or.inr h))
    simp [afterSub, hpre, ih hbs]

theorem occursIn_cons_false {pat : List Char} {b : Char} {bs : List Char}
    (h : occursIn pat (b :: bs) = false) :
    isPre pat (b :: bs) = false ∧ occursIn pat bs = false := by
  unfold occursIn afterSub at h
  by_cases hp : isPre pat (b :: bs) = true
  · simp [hp] at h
  · refine ⟨by revert hp; cases isPre pat (b :: bs) <;> simp, ?_⟩
    simpa [hp, occursIn] using h

theorem replaceAllF_noop {pat rep : List Char} :
    ∀ (fuel : Nat) (l : List Char), occursIn pat l = false → replaceAllF pat rep fuel l = l := by
  intro fuel
  induction fuel with
  | zero => intro l _; cases l <;> rfl
  | succ n ih =>
    intro l hl
    cases l with
    | nil => rfl
    | cons c cs =>
      obtain ⟨hpre, hcs⟩ := occursIn_cons_false hl
      simp only [replaceAllF, hpre, Bool.false_and, if_false, Bool.false_eq_true]
      exact congrArg (c :: ·) (ih cs hcs)

theorem replaceAll_noop {pat rep l : List Char} (h : occursIn pat l = false) :
    replaceAll pat rep l = l :=
  replaceAllF_noop _ l h

theorem strReplace_noop {s pat rep : String} (h : occursIn pat.data s.data = false) :
    strReplace s pat rep = s := by
  unfold strReplace
  rw [replaceAll_noop h]

theorem isPre_append (p r : List Char) : isPre p (p ++ r) = true := by
  induction p with
  | nil => rfl
  | cons a as ih => simp [isPre, ih]

theorem occursIn_of_occursIn_tail {pat : List Char} {c : Char} {cs : List Char}
    (h : occursIn pat cs = true) : occursIn pat (c :: cs) = true := by
  unfold occursIn afterSub
  by_cases hp : isPre pat (c :: cs) = true
  · simp [hp]
  · simp only [Bool.not_eq_true] at hp
    simpa [hp, occursIn] using h

theorem replaceAllF_strip {rest : List Char} (h : occursIn "www.".data rest = false) :
    ∀ fuel, replaceAllF "www.".data [] (fuel + 4) ("www.".data ++ rest) = rest := by
  intro fuel
  have hpre : isPre "www.".data ("www.".data ++ rest) = true := isPre_append _ _
  show replaceAllF "www.".data [] (fuel + 4) ('w' :: 'w' :: 'w' :: '.' :: rest) = rest
  simp only [replaceAllF, hpre]
  simpa using replaceAllF_noop (fuel + 3) rest h

/-- When `www.` occurs in the host only as the leading prefix, the code's
replace-all strips exactly that prefix; when it does not occur at all, the
host is unchanged. -/
theorem replaceAll_www_prefix (rest : List Char) (h : occursIn "www.".data rest = false) :
    replaceAll "www.".data [] ("www.".data ++ rest) = rest
    ∧ replaceAll "www.".data [] rest = rest := by
  constructor
  · unfold replaceAll
    have : ("www.".data ++ rest).length = rest.length + 4 := by
      simp [List.length_append]
    rw [this]
    exact replaceAllF_strip h rest.length
  · exact replaceAll_noop h

theorem netloc_empty_of_no_colon {u : String} (h : (':' : Char) ∉ u.data) : netloc u = "" := by
  unfold netloc
  rw [afterSub_none (c := ':') (by decide) h]

theorem strReplace_empty (pat rep : String) : strReplace "" pat rep = "" := by
  unfold strReplace replaceAll
  cases hp : pat.data <;> rfl

/-! ## Helper lemmas: observers, resolver, navigation -/

theorem handle_console_message_fields (s : ScraperState) (ts : Nat) (m : ConsoleMsg) :
    (handle_console_message s ts m).gdpr_present = s.gdpr_present
    ∧ (handle_console_message s ts m).site_url = s.site_url
    ∧ (handle_console_message s ts m).pageUrl = s.pageUrl := by
  unfold handle_console_message
  split <;> exact ⟨rfl, rfl, rfl⟩

theorem handle_page_error_fields (s : ScraperState) (ts : Nat) (e : String) :
    (handle_page_error s ts e).gdpr_present = s.gdpr_present
    ∧ (handle_page_error s ts e).site_url = s.site_url
    ∧ (handle_page_error s ts e).pageUrl = s.pageUrl :=
  ⟨rfl, rfl, rfl⟩

theorem deliverEvents_spec (evs : List PageEvent) (s : ScraperState) (ts : Nat) :
    (∃ tail, (deliverEvents s ts evs).console_errors = s.console_errors ++ tail
       ∧ ∀ e ∈ tail, e.type = "error" ∨ e.type = "warning" ∨ e.type = "page_error")
    ∧ (deliverEvents s ts evs).gdpr_present = s.gdpr_present
    ∧ (deliverEvents s ts evs).site_url = s.site_url
    ∧ (deliverEvents s ts evs).pageUrl = s.pageUrl := by
  induction evs generalizing s ts with
  | nil => exact ⟨⟨[], by simp [deliverEvents], by simp⟩, rfl, rfl, rfl⟩
  | cons ev rest ih =>
    cases ev with
    | console m =>
      obtain ⟨⟨tail, htail, hty⟩, hg, hu, hp⟩ := ih (handle_console_message s ts m) (ts + 1)
      obtain ⟨hg0, hu0, hp0⟩ := handle_console_message_fields s ts m
      by_cases hm : (m.type = "error" || m.type = "warning") = true
      · refine ⟨⟨consoleEvent ts m s.pageUrl :: tail, ?_, ?_⟩,
            by simpa [deliverEvents, hg0] using hg,
            by simpa [deliverEvents, hu0] using hu,
            by simpa [deliverEvents, hp0] using hp⟩
        · show (deliverEvents (handle_console_message s ts m) (ts + 1) rest).console_errors = _
          rw [htail]
          unfold handle_console_message
          rw [if_pos hm]
          simp
        · intro e he
          rcases List.mem_cons.1 he with rfl | hmem
          · rcases Bool.or_eq_true_iff.1 hm with h1 | h1
            · exact Or.inl (by simpa [consoleEvent] using of_decide_eq_true h1)
            · exact Or.inr (Or.inl (by simpa [consoleEvent] using of_decide_eq_true h1))
          · exact hty e hmem
      · refine ⟨⟨tail, ?_, hty⟩,
            by simpa [deliverEvents, hg0] using hg,
            by simpa [deliverEvents, hu0] using hu,
            by simpa [deliverEvents, hp0] using hp⟩
        show (deliverEvents (handle_console_message s ts m) (ts + 1) rest).console_errors = _
        rw [htail]
        unfold handle_console_message
        rw [if_neg (by simpa using hm)]
    | pageError err =>
      obtain ⟨⟨tail, htail, hty⟩, hg, hu, hp⟩ := ih (handle_page_error s ts err) (ts + 1)
      refine ⟨⟨pageErrorEvent ts err s.pageUrl :: tail, ?_, ?_⟩,
          by simpa [deliverEvents] using hg,
          by simpa [deliverEvents] using hu,
          by simpa [deliverEvents] using hp⟩
      · show (deliverEvents (handle_page_error s ts err) (ts + 1) rest).console_errors = _
        rw [htail]
        unfold handle_page_error
        simp
      · intro e he
        rcases List.mem_cons.1 he with rfl | hmem
        · exact Or.inr (Or.inr rfl)
        · exact hty e hmem

theorem tryClickList_true_iff (page : String → SelectorOutcome) (l : List String) :
    (tryClickList page l).1 = true ↔ ∃ sel ∈ l, page sel = SelectorOutcome.visibleClickOk := by
  induction l with
  | nil => simp [tryClickList]
  | cons sel rest ih =>
    cases hps : page sel with
    | visibleClickOk => simp [tryClickList, hps]
    | visibleClickFails => simp [tryClickList, hps, ih]
    | notVisible => simp [tryClickList, hps, ih]
    | throws => simp [tryClickList, hps, ih]

theorem tryClickList_false_examined (page : String → SelectorOutcome) (l : List String)
    (h : (tryClickList page l).1 = false) : (tryClickList page l).2 = l := by
  induction l with
  | nil => rfl
  | cons sel rest ih =>
    cases hps : page sel with
    | visibleClickOk => simp [tryClickList, hps] at h
    | visibleClickFails =>
      simp only [tryClickList, hps] at h ⊢
      exact congrArg (sel :: ·) (ih h)
    | notVisible =>
      simp only [tryClickList, hps] at h ⊢
      exact congrArg (sel :: ·) (ih h)
    | throws =>
      simp only [tryClickList, hps] at h ⊢
      exact congrArg (sel :: ·) (ih h)

theorem tryClickList_first_hit (page : String → SelectorOutcome) (pre post : List String)
    (sel : String) (hpre : ∀ x ∈ pre, page x ≠ SelectorOutcome.visibleClickOk)
    (hsel : page sel = SelectorOutcome.visibleClickOk) :
    tryClickList page (pre ++ sel :: post) = (true, pre ++ [sel]) := by
  induction pre with
  | nil => simp [tryClickList, hsel]
  | cons x xs ih =>
    have hx : page x ≠ SelectorOutcome.visibleClickOk := hpre x (List.mem_cons_self x xs)
    have hxs : ∀ y ∈ xs, page y ≠ SelectorOutcome.visibleClickOk :=
      fun y hy => hpre y (List.mem_cons.2 (Or.inr hy))
    cases hpx : page x with
    | visibleClickOk => exact absurd hpx hx
    | visibleClickFails => simp [tryClickList, hpx, ih hxs]
    | notVisible => simp [tryClickList, hpx, ih hxs]
    | throws => simp [tryClickList, hpx, ih hxs]

theorem find_and_click_fields (page : String → SelectorOutcome) (s : ScraperState) :
    ((find_and_click_accept_button page s).2.2).console_errors = s.console_errors
    ∧ ((find_and_click_accept_button page s).2.2).site_url = s.site_url
    ∧ ((find_and_click_accept_button page s).2.2).pageUrl = s.pageUrl
    ∧ ((find_and_click_accept_button page s).2.2).gdpr_present
        = (s.gdpr_present || (tryClickList page accept_selectors).1) := by
  unfold find_and_click_accept_button
  cases h : (tryClickList page accept_selectors).1 <;> simp [h]

theorem appendNavError_fields (s : ScraperState) (ts : Nat) (e : String) :
    (appendNavError s ts e).console_errors = s.console_errors ++ [navErrorEvent ts e s.site_url]
    ∧ (appendNavError s ts e).gdpr_present = s.gdpr_present
    ∧ (appendNavError s ts e).site_url = s.site_url :=
  ⟨rfl, rfl, rfl⟩

theorem navigate_spec (page : String → SelectorOutcome) (sc : NavScenario)
    (s : ScraperState) (ts : Nat) :
    (∃ tail, (navigate_and_capture_errors page sc s ts).console_errors = s.console_errors ++ tail
       ∧ ∀ e ∈ tail, e.type = "error" ∨ e.type = "warning" ∨ e.type = "page_error"
           ∨ e.type = "navigation_error")
    ∧ (navigate_and_capture_errors page sc s ts).site_url = s.site_url
    ∧ (navigate_and_capture_errors page sc s ts).gdpr_present
        = (s.gdpr_present || (sc.gotoExc.isNone && (tryClickList page accept_selectors).1)) := by
  cases hg : sc.gotoExc with
  | some e =>
    have hnav : navigate_and_capture_errors page sc s ts
        = appendNavError (deliverEvents s ts sc.preEvents) (ts + sc.preEvents.length) e := by
      unfold navigate_and_capture_errors
      rw [hg]
    obtain ⟨⟨t1, ht1, hty1⟩, hg1, hu1, hp1⟩ := deliverEvents_spec sc.preEvents s ts
    obtain ⟨he2, hg2, hu2⟩ :=
      appendNavError_fields (deliverEvents s ts sc.preEvents) (ts + sc.preEvents.length) e
    refine ⟨⟨t1 ++ [navErrorEvent (ts + sc.preEvents.length) e s.site_url], ?_, ?_⟩, ?_, ?_⟩
    · rw [hnav, he2, ht1, hu1, List.append_assoc]
    · intro x hx
      rcases List.mem_append.1 hx with hx1 | hx2
      · rcases hty1 x hx1 with h | h | h
        · exact Or.inl h
        · exact Or.inr (Or.inl h)
        · exact Or.inr (Or.inr (Or.inl h))
      · rw [List.mem_singleton.1 hx2]
        exact Or.inr (Or.inr (Or.inr rfl))
    · rw [hnav, hu2, hu1]
    · rw [hnav, hg2, hg1]
      simp
  | none =>
    obtain ⟨⟨t1, ht1, hty1⟩, hg1, hu1, hp1⟩ :=
      deliverEvents_spec sc.preEvents { s with pageUrl := s.site_url } ts
    obtain ⟨hcf, huf, hpf, hgf⟩ :=
      find_and_click_fields page (deliverEvents { s with pageUrl := s.site_url } ts sc.preEvents)
    obtain ⟨⟨t2, ht2, hty2⟩, hg2, hu2, hp2⟩ :=
      deliverEvents_spec sc.postEvents
        ((find_and_click_accept_button page
            (deliverEvents { s with pageUrl := s.site_url } ts sc.preEvents)).2.2)
        (ts + sc.preEvents.length)
    have hty12 : ∀ x ∈ t1 ++ t2, x.type = "error" ∨ x.type = "warning" ∨ x.type = "page_error" := by
      intro x hx
      rcases List.mem_append.1 hx with hx1 | hx2
      · exact hty1 x hx1
      · exact hty2 x hx2
    have herr : (deliverEvents
          ((find_and_click_accept_button page
              (deliverEvents { s with pageUrl := s.site_url } ts sc.preEvents)).2.2)
          (ts + sc.preEvents.length) sc.postEvents).console_errors
        = s.console_errors ++ (t1 ++ t2) := by
      rw [ht2, hcf, ht1]
      simp [List.append_assoc]
    have husite : (deliverEvents
          ((find_and_click_accept_button page
              (deliverEvents { s with pageUrl := s.site_url } ts sc.preEvents)).2.2)
          (ts + sc.preEvents.length) sc.postEvents).site_url = s.site_url := by
      rw [hu2, huf, hu1]
    have hgdpr : (deliverEvents
          ((find_and_click_accept_button page
              (deliverEvents { s with pageUrl := s.site_url } ts sc.preEvents)).2.2)
          (ts + sc.preEvents.length) sc.postEvents).gdpr_present
        = (s.gdpr_present || (tryClickList page accept_selectors).1) := by
      rw [hg2, hgf, hg1]
    cases hl : sc.laterExc with
    | some e =>
      have hnav : navigate_and_capture_errors page sc s ts
          = appendNavError
              (deliverEvents
                ((find_and_click_accept_button page
                    (deliverEvents { s with pageUrl := s.site_url } ts sc.preEvents)).2.2)
                (ts + sc.preEvents.length) sc.postEvents)
              (ts + sc.preEvents.length + sc.postEvents.length) e := by
        unfold navigate_and_capture_errors
        rw [hg, hl]
      obtain ⟨he3, hg3, hu3⟩ := appendNavError_fields
        (deliverEvents
          ((find_and_click_accept_button page
              (deliverEvents { s with pageUrl := s.site_url } ts sc.preEvents)).2.2)
          (ts + sc.preEvents.length) sc.postEvents)
        (ts + sc.preEvents.length + sc.postEvents.length) e
      refine ⟨⟨(t1 ++ t2) ++
          [navErrorEvent (ts + sc.preEvents.length + sc.postEvents.length) e s.site_url],
          ?_, ?_⟩, ?_, ?_⟩
      · rw [hnav, he3, herr, husite, List.append_assoc]
      · intro x hx
        rcases List.mem_append.1 hx with hx1 | hx2
        · rcases hty12 x hx1 with h | h | h
          · exact Or.inl h
          · exact Or.inr (Or.inl h)
          · exact Or.inr (Or.inr (Or.inl h))
        · rw [List.mem_singleton.1 hx2]
          exact Or.inr (Or.inr (Or.inr rfl))
      · rw [hnav, hu3, husite]
      · rw [hnav, hg3, hgdpr]
        simp
    | none =>
      have hnav : navigate_and_capture_errors page sc s ts
          = deliverEvents
              ((find_and_click_accept_button page
                  (deliverEvents { s with pageUrl := s.site_url } ts sc.preEvents)).2.2)
              (ts + sc.preEvents.length) sc.postEvents := by
        unfold navigate_and_capture_errors
        rw [hg, hl]
      refine ⟨⟨t1 ++ t2, ?_, ?_⟩, ?_, ?_⟩
      · rw [hnav, herr]
      · intro x hx
        rcases hty12 x hx with h | h | h
        · exact Or.inl h
        · exact Or.inr (Or.inl h)
        · exact Or.inr (Or.inr (Or.inl h))
      · rw [hnav, husite]
      · rw [hnav, hgdpr]
        simp

theorem navigate_exc_spec (page : String → SelectorOutcome) (sc : NavScenario)
    (s : ScraperState) (ts : Nat) (e : String)
    (h : sc.gotoExc = some e ∨ (sc.gotoExc = none ∧ sc.laterExc = some e)) :
    ∃ t1 ts2, (navigate_and_capture_errors page sc s ts).console_errors
        = s.console_errors ++ t1 ++ [navErrorEvent ts2 e s.site_url]
      ∧ ∀ x ∈ t1, x.type = "error" ∨ x.type = "warning" ∨ x.type = "page_error" := by
  rcases h with hg | ⟨hg, hl⟩
  · have hnav : navigate_and_capture_errors page sc s ts
        = appendNavError (deliverEvents s ts sc.preEvents) (ts + sc.preEvents.length) e := by
      unfold navigate_and_capture_errors
      rw [hg]
    obtain ⟨⟨t1, ht1, hty1⟩, hg1, hu1, hp1⟩ := deliverEvents_spec sc.preEvents s ts
    obtain ⟨he2, hg2, hu2⟩ :=
      appendNavError_fields (deliverEvents s ts sc.preEvents) (ts + sc.preEvents.length) e
    exact ⟨t1, ts + sc.preEvents.length, by rw [hnav, he2, ht1, hu1], hty1⟩
  · obtain ⟨⟨t1, ht1, hty1⟩, hg1, hu1, hp1⟩ :=
      deliverEvents_spec sc.preEvents { s with pageUrl := s.site_url } ts
    obtain ⟨hcf, huf, hpf, hgf⟩ :=
      find_and_click_fields page (deliverEvents { s with pageUrl := s.site_url } ts sc.preEvents)
    obtain ⟨⟨t2, ht2, hty2⟩, hg2, hu2, hp2⟩ :=
      deliverEvents_spec sc.postEvents
        ((find_and_click_accept_button page
            (deliverEvents { s with pageUrl := s.site_url } ts sc.preEvents)).2.2)
        (ts + sc.preEvents.length)
    have herr : (deliverEvents
          ((find_and_click_accept_button page
              (deliverEvents { s with pageUrl := s.site_url } ts sc.preEvents)).2.2)
          (ts + sc.preEvents.length) sc.postEvents).console_errors
        = s.console_errors ++ (t1 ++ t2) := by
      rw [ht2, hcf, ht1]
      simp [List.append_assoc]
    have husite : (deliverEvents
          ((find_and_click_accept_button page
              (deliverEvents { s with pageUrl := s.site_url } ts sc.preEvents)).2.2)
          (ts + sc.preEvents.length) sc.postEvents).site_url = s.site_url := by
      rw [hu2, huf, hu1]
    have hnav : navigate_and_capture_errors page sc s ts
        = appendNavError
            (deliverEvents
              ((find_and_click_accept_button page
                  (deliverEvents { s with pageUrl := s.site_url } ts sc.preEvents)).2.2)
              (ts + sc.preEvents.length) sc.postEvents)
            (ts + sc.preEvents.length + sc.postEvents.length) e := by
      unfold navigate_and_capture_errors
      rw [hg, hl]
    obtain ⟨he3, hg3, hu3⟩ := appendNavError_fields
      (deliverEvents
        ((find_and_click_accept_button page
            (deliverEvents { s with pageUrl := s.site_url } ts sc.preEvents)).2.2)
        (ts + sc.preEvents.length) sc.postEvents)
      (ts + sc.preEvents.length + sc.postEvents.length) e
    refine ⟨t1 ++ t2, ts + sc.preEvents.length + sc.postEvents.length, ?_, ?_⟩
    · rw [hnav, he3, herr, husite, List.append_assoc]
    · intro x hx
      rcases List.mem_append.1 hx with hx1 | hx2
      · exact hty1 x hx1
      · exact hty2 x hx2

theorem load_env_file_error_iff (f : Option (List String)) :
    (∃ e, load_env_file f = Except.error e)
      ↔ (f = none ∨ ∃ lines, f = some lines
           ∧ (findSiteUrl lines = none ∨ findSiteUrl lines = some "")) := by
  cases f with
  | none => simp [load_env_file]
  | some lines =>
    cases hf : findSiteUrl lines with
    | none => simp [load_env_file, hf]
    | some v =>
      by_cases hv : v = ""
      · subst hv
        simp [load_env_file, hf]
      · simp [load_env_file, hf, hv]

theorem save_spec (s : ScraperState) (now : Nat) :
    (save_errors_to_json s now = none ↔ s.console_errors = [])
    ∧ ∀ fw, save_errors_to_json s now = some fw →
        fw.path = "console_error/site_url/" ++ deriveDomain (s.site_url.getD "") ++ ".json"
        ∧ fw.data.total_errors = s.console_errors.length
        ∧ fw.data.errors = s.console_errors
        ∧ fw.data.domain = deriveDomain (s.site_url.getD "")
        ∧ fw.data.site_url = s.site_url.getD ""
        ∧ fw.data.GDPR_PRESENT = (if s.gdpr_present then "TRUE" else "FALSE") := by
  rcases eq_or_ne s.console_errors [] with hnil | hnil
  · constructor
    · simp [save_errors_to_json, hnil]
    · intro fw hfw
      simp [save_errors_to_json, hnil] at hfw
  · have hne : s.console_errors.isEmpty = false := by
      simpa [List.isEmpty_iff] using hnil
    constructor
    · simp [save_errors_to_json, hne, hnil]
    · intro fw hfw
      simp only [save_errors_to_json, hne, Bool.false_eq_true, if_false,
        Option.some.injEq] at hfw
      subst hfw
      exact ⟨rfl, rfl, rfl, rfl, rfl, rfl⟩

theorem run_error_eq (inp : RunInput) (e : ConfigError)
    (he : load_env_file inp.envFile = Except.error e) :
    run inp = { fileWritten := none, finalState := initialState
              , finalResources := cleanup noResources, browserAcquired := false
              , actions := [RunAction.loadConfig,
                            RunAction.printError (configErrorMessage e), RunAction.cleanup] } := by
  unfold run
  rw [he]

theorem run_ok_eq (inp : RunInput) (url : String)
    (hok : load_env_file inp.envFile = Except.ok url) (hs : inp.setupFails = false) :
    run inp = { fileWritten := save_errors_to_json
                  (navigate_and_capture_errors inp.page inp.nav (readyState url) 0) 0
              , finalState := navigate_and_capture_errors inp.page inp.nav (readyState url) 0
              , finalResources := cleanup allResources
              , browserAcquired := true
              , actions := [RunAction.loadConfig, RunAction.setupBrowser,
                            RunAction.navigate, RunAction.save, RunAction.cleanup] } := by
  unfold run
  rw [hok, hs]
  simp

theorem occursIn_false_of_not_mem {pat l : List Char} {c : Char} (hc : c ∈ pat) (hl : c ∉ l) :
    occursIn pat l = false := by
  unfold occursIn
  rw [afterSub_none hc hl]
  rfl

theorem deriveDomain_fixed (d : String) (h1 : occursIn "www.".data d.data = false)
    (h2 : (':' : Char) ∉ d.data) (h3 : ('/' : Char) ∉ d.data) :
    deriveDomain d = d := by
  have hnet : netloc d = "" := netloc_empty_of_no_colon h2
  have hhttps : strReplace d "https://" "" = d :=
    strReplace_noop (occursIn_false_of_not_mem (by decide) h3)
  have hhttp : strReplace d "http://" "" = d :=
    strReplace_noop (occursIn_false_of_not_mem (by decide) h3)
  have hwww : strReplace d "www." "" = d := strReplace_noop h1
  have hslash : strReplace d "/" "_" = d :=
    strReplace_noop (occursIn_false_of_not_mem (by decide) h3)
  have hcolon : strReplace d ":" "_" = d :=
    strReplace_noop (occursIn_false_of_not_mem (by decide) h2)
  unfold deriveDomain
  rw [hnet, strReplace_empty, strReplace_empty, hhttps, hhttp, hwww, hslash, hcolon]
  simp

/-- C2 (counterexample): the code does not strip `www.` only as a host
prefix — `str.replace` removes every occurrence.  For the host
`sub.www.example.com` the code yields `sub.example.com` while the claimed
prefix-stripping yields `sub.www.example.com`; and the derivation is not
idempotent: `https://wwwww.w.example/` derives to `www.example`, which
derives again to `example`. -/
theorem c2_counterexample :
    deriveDomain "https://sub.www.example.com/path" = "sub.example.com"
    ∧ specDomain "https://sub.www.example.com/path" = "sub.www.example.com"
    ∧ deriveDomain "https://sub.www.example.com/path"
        ≠ specDomain "https://sub.www.example.com/path"
    ∧ deriveDomain "https://wwwww.w.example/" = "www.example"
    ∧ deriveDomain "www.example" = "example"
    ∧ deriveDomain (deriveDomain "https://wwwww.w.example/")
        ≠ deriveDomain "https://wwwww.w.example/" :=
  ⟨rfl, rfl, by decide, rfl, rfl, by decide⟩

/-- C2 (amended): the domain is derived deterministically from the URL's
host by removing every non-overlapping occurrence of the substring `www.`
(which coincides with stripping the `www.` prefix whenever `www.` occurs
only there) and replacing `:` with `_`; `https://www.Example.com:8080/path`
yields `Example.com_8080`; the same input always yields the same domain,
which is used verbatim as the output file's base name; the derivation is
idempotent whenever its output is free of `www.`, `:` and `/`. -/
theorem c2_domain_amended :
    deriveDomain "https://www.Example.com:8080/path" = "Example.com_8080"
    ∧ (∀ u1 u2 : String, u1 = u2 → deriveDomain u1 = deriveDomain u2)
    ∧ (∀ rest : List Char, occursIn "www.".data rest = false →
        replaceAll "www.".data [] ("www.".data ++ rest) = rest
        ∧ replaceAll "www.".data [] rest = rest)
    ∧ (∀ (s : ScraperState) (now : Nat) (fw : FileWrite),
        save_errors_to_json s now = some fw →
        fw.data.domain = deriveDomain fw.data.site_url
        ∧ fw.path = "console_error/site_url/" ++ fw.data.domain ++ ".json")
    ∧ (∀ u : String, occursIn "www.".data (deriveDomain u).data = false →
        (':' : Char) ∉ (deriveDomain u).data → ('/' : Char) ∉ (deriveDomain u).data →
        deriveDomain (deriveDomain u) = deriveDomain u) := by
  refine ⟨rfl, ?_, ?_, ?_, ?_⟩
  · intro u1 u2 h
    rw [h]
  · intro rest h
    exact replaceAll_www_prefix rest h
  · intro s now fw hfw
    obtain ⟨hp, ht, he, hd, hu, hg⟩ := (save_spec s now).2 fw hfw
    refine ⟨?_, ?_⟩
    · rw [hd, hu]
    · rw [hp, hd]
  · intro u h1 h2 h3
    exact deriveDomain_fixed (deriveDomain u) h1 h2 h3

/-- C4: the Consent-Control Resolver tries the candidate selectors in
their fixed order; every failing candidate (not visible, click fails, or
check throws) is swallowed and the scan moves on; the first candidate that
is visible and successfully clicked stops the scan (later candidates are
not examined), and the returned boolean says whether any control was
activated; a success sets the persistent flag and the resolver never
touches the captured events. -/
theorem c4_resolver_order (page : String → SelectorOutcome) (s : ScraperState) :
    ((find_and_click_accept_button page s).1 = true
        ↔ ∃ sel ∈ accept_selectors, page sel = SelectorOutcome.visibleClickOk)
    ∧ (∀ pre post sel, accept_selectors = pre ++ sel :: post →
        (∀ x ∈ pre, page x ≠ SelectorOutcome.visibleClickOk) →
        page sel = SelectorOutcome.visibleClickOk →
        (find_and_click_accept_button page s).2.1 = pre ++ [sel]
        ∧ (find_and_click_accept_button page s).1 = true)
    ∧ ((find_and_click_accept_button page s).1 = false →
        (find_and_click_accept_button page s).2.1 = accept_selectors)
    ∧ (find_and_click_accept_button page s).2.2.gdpr_present
        = (s.gdpr_present || (find_and_click_accept_button page s).1)
    ∧ (find_and_click_accept_button page s).2.2.console_errors = s.console_errors := by
  refine ⟨tryClickList_true_iff page accept_selectors, ?_, ?_, ?_, ?_⟩
  · intro pre post sel hdec hpre hsel
    have hfirst := tryClickList_first_hit page pre post sel hpre hsel
    constructor
    · show (tryClickList page accept_selectors).2 = pre ++ [sel]
      rw [hdec, hfirst]
    · show (tryClickList page accept_selectors).1 = true
      rw [hdec, hfirst]
  · intro hfalse
    exact tryClickList_false_examined page accept_selectors hfalse
  · exact (find_and_click_fields page s).2.2.2
  · exact (find_and_click_fields page s).1

/-- C7: a configured URL without the `http://` or `https://` scheme has
`https://` prepended exactly once; a URL already carrying one of those
schemes is left unchanged; every URL the Configuration Loader resolves is
produced by this prepending step. -/
theorem c7_scheme_prepend (u v : String)
    (hu : (isPre "http://".data u.data || isPre "https://".data u.data) = false)
    (hv : (isPre "http://".data v.data || isPre "https://".data v.data) = true) :
    addProtocol u = "https://" ++ u
    ∧ addProtocol v = v
    ∧ ∀ f url, load_env_file f = Except.ok url → ∃ w, url = addProtocol w := by
  refine ⟨?_, ?_, ?_⟩
  · unfold addProtocol
    rw [hu]
    simp
  · unfold addProtocol
    rw [hv]
    simp
  · intro f url hok
    cases f with
    | none => simp [load_env_file] at hok
    | some lines =>
      cases hf : findSiteUrl lines with
      | none => simp [load_env_file, hf] at hok
      | some w =>
        by_cases hw : w = ""
        · subst hw
          simp [load_env_file, hf] at hok
        · refine ⟨w, ?_⟩
          simp [load_env_file, hf, hw] at hok
          exact hok.symm

/-- C7 witness: `example.com` gains the scheme once, `http://x.com` is
left unchanged. -/
theorem c7_witness :
    addProtocol "example.com" = "https://" ++ "example.com"
    ∧ addProtocol "http://x.com" = "http://x.com"
    ∧ ∀ f url, load_env_file f = Except.ok url → ∃ w, url = addProtocol w :=
  c7_scheme_prepend "example.com" "http://x.com" (by decide) (by decide)

/-- C9: the Diagnostic Event sequence is append-only and order-preserving:
navigation only ever appends a batch of events whose kinds are drawn from
{error, warning, page_error, navigation_error}; a console message of
severity error/warning appends exactly its event at the end, any other
severity changes nothing; a page error appends exactly its event; the
persisted errors array equals the event sequence. -/
theorem c9_event_log (page : String → SelectorOutcome) (sc : NavScenario)
    (s : ScraperState) (ts : Nat) :
    (∃ tail, (navigate_and_capture_errors page sc s ts).console_errors = s.console_errors ++ tail
       ∧ ∀ e ∈ tail, e.type = "error" ∨ e.type = "warning" ∨ e.type = "page_error"
           ∨ e.type = "navigation_error")
    ∧ (∀ (s0 : ScraperState) (t : Nat) (m : ConsoleMsg),
        (m.type = "error" || m.type = "warning") = true →
        (handle_console_message s0 t m).console_errors
          = s0.console_errors ++ [consoleEvent t m s0.pageUrl])
    ∧ (∀ (s0 : ScraperState) (t : Nat) (m : ConsoleMsg),
        (m.type = "error" || m.type = "warning") = false →
        handle_console_message s0 t m = s0)
    ∧ (∀ (s0 : ScraperState) (t : Nat) (err : String),
        (handle_page_error s0 t err).console_errors
          = s0.console_errors ++ [pageErrorEvent t err s0.pageUrl])
    ∧ (∀ now fw, save_errors_to_json (navigate_and_capture_errors page sc s ts) now = some fw →
        fw.data.errors = (navigate_and_capture_errors page sc s ts).console_errors) := by
  refine ⟨(navigate_spec page sc s ts).1, ?_, ?_, ?_, ?_⟩
  · intro s0 t m hm
    unfold handle_console_message
    rw [if_pos hm]
  · intro s0 t m hm
    unfold handle_console_message
    rw [if_neg (by simp [hm])]
  · intro s0 t err
    rfl
  · intro now fw hfw
    exact ((save_spec _ now).2 fw hfw).2.2.1

theorem findSiteUrl_cons_hit (raw : String) (rest : List String) (h : lineMatch raw = true) :
    findSiteUrl (raw :: rest) = some (lineValue raw) := by
  unfold lineMatch at h
  rw [findSiteUrl, lineValue]
  cases hp : parseLine raw with
  | none =>
    rw [hp] at h
    cases h
  | some kv =>
    obtain ⟨k, v⟩ := kv
    rw [hp] at h
    simp only [hp]
    rw [if_pos (of_decide_eq_true h)]

theorem findSiteUrl_cons_skip (raw : String) (rest : List String) (h : lineMatch raw = false) :
    findSiteUrl (raw :: rest) = findSiteUrl rest := by
  unfold lineMatch at h
  rw [findSiteUrl]
  cases hp : parseLine raw with
  | none => simp only [hp]
  | some kv =>
    obtain ⟨k, v⟩ := kv
    rw [hp] at h
    simp only [hp]
    rw [if_neg (of_decide_eq_false h)]

/-- C10: the Configuration Loader uses only the first line whose key
(before the first `=`) strips to SITE_URL and stops there (later lines,
matching or not, are ignored); blank lines, `#` comment lines and lines
without `=` are skipped; a first matching line with an empty stripped
value makes the loader fail with the missing-key configuration error. -/
theorem c10_first_match (pre post : List String) (line : String)
    (hpre : ∀ l ∈ pre, lineMatch l = false)
    (hline : lineMatch line = true) :
    findSiteUrl (pre ++ line :: post) = some (lineValue line)
    ∧ (∀ raw : String,
        trimChars raw.data = [] ∨ isPre ['#'] (trimChars raw.data) = true
          ∨ splitFirstEq (trimChars raw.data) = none →
        parseLine raw = none ∧ lineMatch raw = false)
    ∧ (lineValue line ≠ "" →
        load_env_file (some (pre ++ line :: post)) = Except.ok (addProtocol (lineValue line)))
    ∧ (lineValue line = "" →
        load_env_file (some (pre ++ line :: post)) = Except.error ConfigError.siteUrlNotFound) := by
  have hfind : ∀ pre2 : List String, (∀ l ∈ pre2, lineMatch l = false) →
      findSiteUrl (pre2 ++ line :: post) = some (lineValue line) := by
    intro pre2
    induction pre2 with
    | nil =>
      intro _
      rw [List.nil_append]
      exact findSiteUrl_cons_hit line post hline
    | cons x xs ih =>
      intro hp2
      rw [List.cons_append, findSiteUrl_cons_skip x _ (hp2 x (List.mem_cons_self x xs))]
      exact ih (fun l hl => hp2 l (List.mem_cons.2 (Or.inr hl)))
  refine ⟨hfind pre hpre, ?_, ?_, ?_⟩
  · intro raw hskip
    have hnone : parseLine raw = none := by
      simp only [parseLine]
      rcases hskip with h | h | h
      · rw [h]
        rfl
      · rw [if_pos (by rw [h]; simp)]
      · by_cases hb : ((trimChars raw.data).isEmpty || isPre ['#'] (trimChars raw.data)) = true
        · rw [if_pos hb]
        · rw [if_neg hb, h]
    refine ⟨hnone, ?_⟩
    unfold lineMatch
    rw [hnone]
  · intro hne
    simp only [load_env_file, hfind pre hpre]
    rw [if_neg hne]
  · intro he
    simp only [load_env_file, hfind pre hpre]
    rw [if_pos he]

/-- C10 witness: at a concrete file, comment/blank/other-key/no-equals
lines are skipped, the first SITE_URL line wins and a later one is
ignored, and the resolved URL gains the scheme. -/
theorem c10_witness :
    findSiteUrl ["# comment", "   ", "OTHER=1", "noequals",
        "SITE_URL = example.com", "SITE_URL=ignored"] = some "example.com"
    ∧ (∀ raw : String,
        trimChars raw.data = [] ∨ isPre ['#'] (trimChars raw.data) = true
          ∨ splitFirstEq (trimChars raw.data) = none →
        parseLine raw = none ∧ lineMatch raw = false)
    ∧ (("example.com" : String) ≠ "" →
        load_env_file (some ["# comment", "   ", "OTHER=1", "noequals",
          "SITE_URL = example.com", "SITE_URL=ignored"]) = Except.ok "https://example.com")
    ∧ (("example.com" : String) = "" →
        load_env_file (some ["# comment", "   ", "OTHER=1", "noequals",
          "SITE_URL = example.com", "SITE_URL=ignored"])
          = Except.error ConfigError.siteUrlNotFound) :=
  c10_first_match ["# comment", "   ", "OTHER=1", "noequals"] ["SITE_URL=ignored"]
    "SITE_URL = example.com" (by decide) (by decide)

/-- C1: a run writes an output file iff the captured event sequence is
non-empty; when one is written it is the single file at
`console_error/site_url/<domain>.json` and its `total_errors` field
equals the event-sequence length. -/
theorem c1_persist_iff_events (inp : RunInput) (url : String)
    (hok : load_env_file inp.envFile = Except.ok url) (hsetup : inp.setupFails = false) :
    ((run inp).fileWritten = none
      ↔ (navigate_and_capture_errors inp.page inp.nav (readyState url) 0).console_errors = [])
    ∧ ∀ fw, (run inp).fileWritten = some fw →
        fw.path = "console_error/site_url/" ++ deriveDomain url ++ ".json"
        ∧ fw.data.total_errors
            = (navigate_and_capture_errors inp.page inp.nav (readyState url) 0).console_errors.length := by
  rw [run_ok_eq inp url hok hsetup]
  have hsite : (navigate_and_capture_errors inp.page inp.nav (readyState url) 0).site_url
      = some url := (navigate_spec inp.page inp.nav (readyState url) 0).2.1
  obtain ⟨hiff, hsome⟩ := save_spec (navigate_and_capture_errors inp.page inp.nav (readyState url) 0) 0
  constructor
  · exact hiff
  · intro fw hfw
    obtain ⟨hp, ht, _⟩ := hsome fw hfw
    rw [hsite] at hp
    exact ⟨hp, ht⟩

/-- C1 witness: one captured page error makes the run write the file for
example.com. -/
theorem c1_witness :
    (run { envFile := some ["SITE_URL=example.com"], setupFails := false,
           page := fun _ => SelectorOutcome.notVisible,
           nav := { preEvents := [PageEvent.pageError "boom"], gotoExc := none,
                    postEvents := [], laterExc := none } }).fileWritten = none
      ↔ (navigate_and_capture_errors (fun _ => SelectorOutcome.notVisible)
          { preEvents := [PageEvent.pageError "boom"], gotoExc := none,
            postEvents := [], laterExc := none }
          (readyState "https://example.com") 0).console_errors = [] :=
  (c1_persist_iff_events
    { envFile := some ["SITE_URL=example.com"], setupFails := false,
      page := fun _ => SelectorOutcome.notVisible,
      nav := { preEvents := [PageEvent.pageError "boom"], gotoExc := none,
               postEvents := [], laterExc := none } }
    "https://example.com" rfl rfl).1

/-- C3: after a successful setup, the final GDPR flag is true exactly when
the resolver ran (goto did not raise) and some candidate selector was
visible and successfully clicked, and the written file's `GDPR_PRESENT`
string is "TRUE"/"FALSE" exactly as that persistent flag is true/false. -/
theorem c3_gdpr_flag (inp : RunInput) (url : String)
    (hok : load_env_file inp.envFile = Except.ok url) (hsetup : inp.setupFails = false) :
    ((run inp).finalState.gdpr_present = true
      ↔ (inp.nav.gotoExc = none
          ∧ ∃ sel ∈ accept_selectors, inp.page sel = SelectorOutcome.visibleClickOk))
    ∧ ∀ fw, (run inp).fileWritten = some fw →
        (fw.data.GDPR_PRESENT = "TRUE" ↔ (run inp).finalState.gdpr_present = true)
        ∧ (fw.data.GDPR_PRESENT = "FALSE" ↔ (run inp).finalState.gdpr_present = false) := by
  have hrun := run_ok_eq inp url hok hsetup
  have hnav := (navigate_spec inp.page inp.nav (readyState url) 0).2.2
  have hgd : (navigate_and_capture_errors inp.page inp.nav (readyState url) 0).gdpr_present
      = (inp.nav.gotoExc.isNone && (tryClickList inp.page accept_selectors).1) := by
    rw [hnav]
    rfl
  have hfin : (run inp).finalState
      = navigate_and_capture_errors inp.page inp.nav (readyState url) 0 := by
    rw [hrun]
  have hfw : (run inp).fileWritten
      = save_errors_to_json (navigate_and_capture_errors inp.page inp.nav (readyState url) 0) 0 := by
    rw [hrun]
  constructor
  · rw [hfin, hgd, Bool.and_eq_true]
    constructor
    · rintro ⟨h1, h2⟩
      exact ⟨Option.isNone_iff_eq_none.1 h1,
        (tryClickList_true_iff inp.page accept_selectors).1 h2⟩
    · rintro ⟨h1, h2⟩
      refine ⟨?_, (tryClickList_true_iff inp.page accept_selectors).2 h2⟩
      rw [h1]
      rfl
  · intro fw hsome
    rw [hfw] at hsome
    have hgp := ((save_spec _ 0).2 fw hsome).2.2.2.2.2
    rw [hfin]
    cases hb : (navigate_and_capture_errors inp.page inp.nav (readyState url) 0).gdpr_present with
    | true =>
      rw [hb] at hgp
      simp only [if_true] at hgp
      rw [hgp]
      exact ⟨by decide, by decide⟩
    | false =>
      rw [hb] at hgp
      simp only [Bool.false_eq_true, if_false] at hgp
      rw [hgp]
      exact ⟨by decide, by decide⟩

/-- C3 witness: with a visible `#accept-all` control and one console
error, the flag condition is as the theorem states for that input. -/
theorem c3_witness :
    (run { envFile := some ["SITE_URL=example.com"], setupFails := false,
           page := fun sel => if sel = "#accept-all" then SelectorOutcome.visibleClickOk
                              else SelectorOutcome.notVisible,
           nav := { preEvents := [], gotoExc := none,
                    postEvents := [PageEvent.console { type := "error", text := "x",
                                                       location := none }],
                    laterExc := none } }).finalState.gdpr_present = true
      ↔ ((none : Option String) = none
          ∧ ∃ sel ∈ accept_selectors,
              (fun sel2 => if sel2 = "#accept-all" then SelectorOutcome.visibleClickOk
                           else SelectorOutcome.notVisible) sel
                = SelectorOutcome.visibleClickOk) :=
  (c3_gdpr_flag
    { envFile := some ["SITE_URL=example.com"], setupFails := false,
      page := fun sel => if sel = "#accept-all" then SelectorOutcome.visibleClickOk
                         else SelectorOutcome.notVisible,
      nav := { preEvents := [], gotoExc := none,
               postEvents := [PageEvent.console { type := "error", text := "x",
                                                  location := none }],
               laterExc := none } }
    "https://example.com" rfl rfl).1

/-- C5: every exception in the navigate-and-capture block (from goto, or
from the post-resolver waits/evaluations) is caught and becomes exactly
one appended `navigation_error` event — the last appended event, its text
carrying the exception's description — the driver returns normally, and
the output file is still written since the sequence is now non-empty. -/
theorem c5_navigation_error (page : String → SelectorOutcome) (sc : NavScenario)
    (s : ScraperState) (ts : Nat) (e : String)
    (h : sc.gotoExc = some e ∨ (sc.gotoExc = none ∧ sc.laterExc = some e)) :
    ∃ t1 ts2, (navigate_and_capture_errors page sc s ts).console_errors
        = s.console_errors ++ t1 ++ [navErrorEvent ts2 e s.site_url]
      ∧ (∀ x ∈ t1, x.type ≠ "navigation_error")
      ∧ (navErrorEvent ts2 e s.site_url).type = "navigation_error"
      ∧ (navErrorEvent ts2 e s.site_url).text = "Navigation error: " ++ e
      ∧ ∀ now, save_errors_to_json (navigate_and_capture_errors page sc s ts) now ≠ none := by
  obtain ⟨t1, ts2, heq, hty⟩ := navigate_exc_spec page sc s ts e h
  refine ⟨t1, ts2, heq, ?_, rfl, rfl, ?_⟩
  · intro x hx
    rcases hty x hx with h1 | h1 | h1 <;> rw [h1] <;> decide
  · intro now hnone
    have hempty := ((save_spec (navigate_and_capture_errors page sc s ts) now).1).1 hnone
    rw [heq] at hempty
    simp at hempty

/-- C5 witness: a goto timeout on example.com yields the single
navigation_error event and the file is still written. -/
theorem c5_witness :
    ∃ t1 ts2, (navigate_and_capture_errors (fun _ => SelectorOutcome.notVisible)
        { preEvents := [], gotoExc := some "Timeout 30000ms exceeded.",
          postEvents := [], laterExc := none }
        (readyState "https://example.com") 0).console_errors
        = (readyState "https://example.com").console_errors ++ t1
            ++ [navErrorEvent ts2 "Timeout 30000ms exceeded."
                  (readyState "https://example.com").site_url]
      ∧ (∀ x ∈ t1, x.type ≠ "navigation_error")
      ∧ (navErrorEvent ts2 "Timeout 30000ms exceeded."
          (readyState "https://example.com").site_url).type = "navigation_error"
      ∧ (navErrorEvent ts2 "Timeout 30000ms exceeded."
          (readyState "https://example.com").site_url).text
          = "Navigation error: " ++ "Timeout 30000ms exceeded."
      ∧ ∀ now, save_errors_to_json (navigate_and_capture_errors
          (fun _ => SelectorOutcome.notVisible)
          { preEvents := [], gotoExc := some "Timeout 30000ms exceeded.",
            postEvents := [], laterExc := none }
          (readyState "https://example.com") 0) now ≠ none :=
  c5_navigation_error (fun _ => SelectorOutcome.notVisible)
    { preEvents := [], gotoExc := some "Timeout 30000ms exceeded.",
      postEvents := [], laterExc := none }
    (readyState "https://example.com") 0 "Timeout 30000ms exceeded." (Or.inl rfl)

/-- C6: an absent configuration file, or a missing or empty SITE_URL key,
aborts the run with a configuration error before any browser resource is
acquired — setup, navigation and save never run — and no output file is
produced. -/
theorem c6_config_error_aborts (inp : RunInput)
    (h : inp.envFile = none ∨ ∃ lines, inp.envFile = some lines
          ∧ (findSiteUrl lines = none ∨ findSiteUrl lines = some "")) :
    (run inp).fileWritten = none
    ∧ (run inp).browserAcquired = false
    ∧ RunAction.setupBrowser ∉ (run inp).actions
    ∧ RunAction.navigate ∉ (run inp).actions
    ∧ RunAction.save ∉ (run inp).actions
    ∧ ∃ e, (run inp).actions
        = [RunAction.loadConfig, RunAction.printError (configErrorMessage e),
           RunAction.cleanup] := by
  obtain ⟨e, he⟩ := (load_env_file_error_iff inp.envFile).2 h
  rw [run_error_eq inp e he]
  refine ⟨rfl, rfl, ?_, ?_, ?_, ⟨e, rfl⟩⟩
  · simp
  · simp
  · simp

/-- C6 witness: with no configuration file the run writes nothing. -/
theorem c6_witness :
    (run { envFile := none, setupFails := false,
           page := fun _ => SelectorOutcome.notVisible,
           nav := { preEvents := [], gotoExc := none,
                    postEvents := [], laterExc := none } }).fileWritten = none :=
  (c6_config_error_aborts _ (Or.inl rfl)).1

/-- C8: on every exit path — configuration failure, setup failure, or a
full run — the trace runs cleanup exactly once, as the last action, and
afterwards no page, browser-process or engine handle stays open (the
context is owned by, and released with, the browser process). -/
theorem c8_cleanup_once (inp : RunInput) :
    countCleanup (run inp).actions = 1
    ∧ (run inp).actions.getLast? = some RunAction.cleanup
    ∧ (run inp).finalResources.pageOpen = false
    ∧ (run inp).finalResources.browserOpen = false
    ∧ (run inp).finalResources.playwrightOpen = false := by
  unfold run
  cases hload : load_env_file inp.envFile with
  | error e => exact ⟨rfl, rfl, rfl, rfl, rfl⟩
  | ok url =>
    cases hs : inp.setupFails with
    | true => exact ⟨rfl, rfl, rfl, rfl, rfl⟩
    | false => exact ⟨rfl, rfl, rfl, rfl, rfl⟩
